import Mathlib

/-!
Verification of `src/stdlib/operating-system/solution/argparse_avg.py`.

The script is:

```
from argparse import ArgumentParser

def avg(*args):
    return sum(args) / len(args)

parser = ArgumentParser()
parser.add_argument('--numbers', nargs='+', type=float)
args = parser.parse_args()

result = avg(*args.numbers)
print(result)
```

Modelling choices:
* Numeric values are modelled as exact rationals `ℚ`.  Every concrete value
  appearing in the spec's examples (1, 2, 3, 1.5, 2.5, 4, 6 and the results
  2.0 and 5.0) is exactly representable in IEEE-754 binary64 and the
  corresponding float computations are exact, so the rational model agrees
  with the Python runtime on all inputs used below.
* Python's `/` raises `ZeroDivisionError` on a zero divisor; this is embedded
  as an `Except` value (`pyDiv`).
* `float()` conversion is embedded over the full literal grammar CPython
  accepts: surrounding whitespace, an optional sign, decimal digits with
  underscores between digits, an optional fractional part, an optional
  exponent.  The non-finite literals (`inf`, `infinity`, `nan`, any case)
  are recognised by `isPyFloatLiteral` but carry no rational value, so
  `pyFloat` maps them to `none`; no theorem below evaluates the parser on a
  non-finite literal, and hypotheses about invalid tokens are stated with
  `isPyFloatLiteral` so that a non-finite literal never counts as invalid.
* `parser.parse_args()` is embedded as a left-to-right scan (`parseAux`)
  following argparse's documented behaviour for this parser: `nargs='+'`
  consumes the following value tokens (tokens not shaped like an option;
  argparse's negative-number rule makes `-1` or `-.5` a value) and demands
  at least one of them, each consumed token is converted with `float` and a
  failure is an immediate usage error (exit code 2), a repeated `--numbers`
  overrides the earlier value, `--numbers=X` supplies the single value `X`,
  an unambiguous long-option abbreviation (`--n`, `--num`, ...) names the
  flag, `-h`/`--help` (and abbreviations) print help and exit 0, `--` ends
  option parsing, and an unrecognized argument is a usage error.  An absent
  flag leaves the attribute equal to `None`.
* Applying `avg(*args.numbers)` when `args.numbers` is `None` raises
  `TypeError` (argument after * must be an iterable); `runProgram` embeds
  that as an uncaught error distinct from division by zero.
-/

/-- Errors the Python runtime can raise on the paths this script reaches. -/
inductive PyError
  | zeroDivision
  | typeError
  deriving DecidableEq, Repr

/-- Python's built-in `sum` over the argument tuple: a left-to-right fold
starting from `0`, as in `sum(args)`. -/
def pySum (xs : List ℚ) : ℚ :=
  xs.foldl (· + ·) 0

/-- Python's true division `a / b`: raises `ZeroDivisionError` when `b = 0`,
otherwise yields the exact quotient. -/
def pyDiv (a b : ℚ) : Except PyError ℚ :=
  if b = 0 then .error .zeroDivision else .ok (a / b)

/-- Embedding of `def avg(*args): return sum(args) / len(args)` from
`argparse_avg.py` lines 4-5. -/
def avg (args : List ℚ) : Except PyError ℚ :=
  pyDiv (pySum args) (args.length : ℚ)

/-- The spec's description of the result, taken from its words: "the sum of
all elements divided by the count of elements" (`sum(x1..xn) / n`).  Used
only to compare against `avg`, which is translated from the source. -/
def averageSpec (xs : List ℚ) : ℚ :=
  xs.sum / (xs.length : ℚ)

/-! ### The `float()` literal grammar -/

/-- Leading and trailing whitespace removal, as `float()` strips its
argument. -/
def stripWs (cs : List Char) : List Char :=
  ((cs.dropWhile Char.isWhitespace).reverse.dropWhile Char.isWhitespace).reverse

/-- Consumes a run of decimal digits with single underscores allowed between
digits, as in CPython's `digitpart`; returns the accumulated value, the
number of digits consumed, and the unconsumed remainder. -/
def digitPartAux : List Char → ℕ → ℕ → ℕ × ℕ × List Char
  | [], v, n => (v, n, [])
  | c :: cs, v, n =>
      if c.isDigit then digitPartAux cs (10 * v + (c.toNat - 48)) (n + 1)
      else if c = '_' then
        match cs with
        | d :: cs' =>
            if d.isDigit then digitPartAux cs' (10 * v + (d.toNat - 48)) (n + 1)
            else (v, n, c :: cs)
        | [] => (v, n, c :: cs)
      else (v, n, c :: cs)

/-- The digits of an exponent: a non-empty digit run consuming the whole
remainder. -/
def expDigits (cs : List Char) : Option ℕ :=
  match cs with
  | c :: _ =>
      if c.isDigit then
        match digitPartAux cs 0 0 with
        | (v, _, r) => if r.isEmpty then some v else none
      else none
  | [] => none

/-- An exponent body: optional sign followed by digits. -/
def expPart : List Char → Option ℤ
  | '-' :: cs => (expDigits cs).map (fun n => -(n : ℤ))
  | '+' :: cs => (expDigits cs).map (fun n => (n : ℤ))
  | cs => (expDigits cs).map (fun n => (n : ℤ))

/-- Scaling by a signed power of ten, the meaning of the exponent. -/
def applyExp (q : ℚ) (e : ℤ) : ℚ :=
  if 0 ≤ e then q * (10 : ℚ) ^ e.toNat else q / (10 : ℚ) ^ (-e).toNat

/-- An unsigned finite `float()` literal: `digits [. digits] [exponent]`,
`digits. [exponent]` or `.digits [exponent]`, with at least one digit in the
mantissa and nothing left over. -/
def parseFinite (cs : List Char) : Option ℚ :=
  let (iv, icnt, r1) :=
    match cs with
    | c :: _ => if c.isDigit then digitPartAux cs 0 0 else (0, 0, cs)
    | [] => (0, 0, ([] : List Char))
  let (fv, fcnt, r2) :=
    match r1 with
    | '.' :: cs2 =>
        match cs2 with
        | d :: _ => if d.isDigit then digitPartAux cs2 0 0 else (0, 0, cs2)
        | [] => (0, 0, ([] : List Char))
    | _ => (0, 0, r1)
  let eo :=
    match r2 with
    | [] => some (0 : ℤ)
    | 'e' :: cs3 => expPart cs3
    | 'E' :: cs3 => expPart cs3
    | _ => none
  match eo with
  | none => none
  | some e =>
      if icnt + fcnt = 0 then none
      else some (applyExp ((iv : ℚ) + (fv : ℚ) / (10 : ℚ) ^ fcnt) e)

/-- A signed finite `float()` literal over a character list. -/
def pyFloatChars (cs : List Char) : Option ℚ :=
  match stripWs cs with
  | '-' :: rest => (parseFinite rest).map Neg.neg
  | '+' :: rest => parseFinite rest
  | rest => parseFinite rest

/-- Python's `float()` conversion applied by `type=float` to each collected
token; yields the exact value of a finite literal and `none` otherwise.
Non-finite literals (`inf`, `nan`) have no rational value and also map to
`none`; they are accounted for separately by `isPyFloatLiteral`. -/
def pyFloat (s : String) : Option ℚ :=
  pyFloatChars s.toList

/-- The non-finite literals `float()` accepts: `inf`, `infinity`, `nan` in
any case, with optional sign and surrounding whitespace. -/
def isNonFiniteLiteral (s : String) : Bool :=
  let body :=
    match (stripWs s.toList).map Char.toLower with
    | '-' :: rest => rest
    | '+' :: rest => rest
    | rest => rest
  body == ['i', 'n', 'f'] || body == ['i', 'n', 'f', 'i', 'n', 'i', 't', 'y'] ||
    body == ['n', 'a', 'n']

/-- Whether `float()` accepts the token: a finite literal or one of the
non-finite ones.  `isPyFloatLiteral t = false` is the faithful reading of
"`t` is not a valid floating-point literal". -/
def isPyFloatLiteral (s : String) : Bool :=
  (pyFloat s).isSome || isNonFiniteLiteral s

/-! ### Token classification, as argparse sees `argv` -/

/-- Whether the first list is an initial segment of the second. -/
def startsList : List Char → List Char → Bool
  | [], _ => true
  | _ :: _, [] => false
  | c :: cs, d :: ds => c == d && startsList cs ds

/-- argparse's negative-number shape (after the leading `-`): `digits` or
`digits.digits` / `.digits`.  This parser declares no negative-number-like
option strings, so such tokens are treated as values, not options. -/
def negNumTail (cs : List Char) : Bool :=
  let ds := cs.takeWhile Char.isDigit
  match cs.dropWhile Char.isDigit with
  | [] => !ds.isEmpty
  | '.' :: frac => !frac.isEmpty && frac.all Char.isDigit
  | _ => false

/-- What kind of command-line token argparse sees: a consumable value, the
`--` separator, the help option, the `--numbers` option (exact name, an
unambiguous abbreviation, or the `--name=arg` form, with the explicit
argument when present), or an unrecognized option. -/
inductive TokKind
  | value
  | dashDash
  | helpOpt (arg : Option (List Char))
  | numbersOpt (arg : Option (List Char))
  | unknownOpt

/-- Classification of one `argv` token for this parser.  Long options may be
abbreviated to any non-empty prefix; `--numbers` and `--help` differ from
the first letter, so every non-empty prefix is unambiguous. -/
def classify (t : String) : TokKind :=
  match t.toList with
  | '-' :: '-' :: rest =>
      if rest.isEmpty then .dashDash
      else
        let nm := rest.takeWhile (fun c => c != '=')
        let arg := if nm.length < rest.length then some (rest.drop (nm.length + 1)) else none
        if startsList nm ['n', 'u', 'm', 'b', 'e', 'r', 's'] && !nm.isEmpty then
          .numbersOpt arg
        else if startsList nm ['h', 'e', 'l', 'p'] && !nm.isEmpty then
          .helpOpt arg
        else .unknownOpt
  | ['-', 'h'] => .helpOpt none
  | '-' :: rest =>
      if rest.isEmpty || negNumTail rest then .value else .unknownOpt
  | _ => .value

/-- Whether argparse treats the token as a plain value (consumable by
`nargs='+'`) rather than as an option string or separator. -/
def isValueTok (t : String) : Bool :=
  match classify t with
  | .value => true
  | _ => false

/-! ### The parse loop -/

/-- How `parse_args()` can stop early: a usage error (message on stderr,
exit code 2) or a help request (`-h`/`--help`: help on stdout, exit
code 0). -/
inductive ArgparseStop
  | usageError
  | helpRequest
  deriving DecidableEq, Repr

/-- Closing an open `--numbers` value group: `nargs='+'` demands at least
one collected value (else a usage error, encoded `none`); a completed group
overrides any earlier `--numbers` occurrence. -/
def closeBlock (cur acc : Option (List ℚ)) : Option (Option (List ℚ)) :=
  match cur with
  | some vs => if vs.isEmpty then none else some (some vs.reverse)
  | none => some acc

/-- The argparse scan.  `cur` is the open `--numbers` value group (collected
in reverse) when one is being consumed; `acc` is the parsed attribute so far
(`none` while the flag is unseen, matching the `None` default).  A value
token extends the open group after `float` conversion; any other token
closes the group and is dispatched: `--numbers` opens a new group,
`--numbers=X` supplies one value, help stops with a help request, `--` ends
option parsing (anything after it would be an unrecognized positional), and
a stray value or unknown option is a usage error. -/
def parseAux : List String → Option (List ℚ) → Option (List ℚ) →
    Except ArgparseStop (Option (List ℚ))
  | [], cur, acc =>
      match closeBlock cur acc with
      | some final => .ok final
      | none => .error .usageError
  | t :: rest, cur, acc =>
      if cur.isSome && isValueTok t then
        match pyFloat t, cur with
        | some x, some vs => parseAux rest (some (x :: vs)) acc
        | _, _ => .error .usageError
      else
        match closeBlock cur acc with
        | none => .error .usageError
        | some acc' =>
            match classify t with
            | .value => .error .usageError
            | .unknownOpt => .error .usageError
            | .dashDash => if rest.isEmpty then .ok acc' else .error .usageError
            | .helpOpt none => .error .helpRequest
            | .helpOpt (some _) => .error .usageError
            | .numbersOpt none => parseAux rest (some []) acc'
            | .numbersOpt (some a) =>
                match pyFloatChars a with
                | some x => parseAux rest none (some [x])
                | none => .error .usageError

/-- Embedding of `parser.parse_args()` (lines 8-10): scan `argv` with no
flag seen yet.  `.ok none` models an absent optional flag (the attribute is
`None`); `.ok (some xs)` the collected float values; `.error` an early
argparse exit. -/
def parseArgs (argv : List String) : Except ArgparseStop (Option (List ℚ)) :=
  parseAux argv none none

/-! ### Output rendering and the pipeline -/

/-- Fractional decimal digits of `q` (expected `0 ≤ q < 1`), with fuel
bounding the number of emitted digits. -/
def decimalDigits : ℕ → ℚ → String
  | 0, _ => ""
  | n + 1, q =>
      if q = 0 then ""
      else
        let d := (q * 10).floor
        toString d ++ decimalDigits n (q * 10 - (d : ℚ))

/-- Decimal rendering of a nonnegative rational the way Python prints a
float: an integer value (reduced denominator 1) is shown with a trailing
`.0` (so `print(5.0)` writes `5.0`). -/
def pyStrFloatNN (q : ℚ) : String :=
  if q.den = 1 then toString q.num.toNat ++ ".0"
  else toString q.floor.toNat ++ "." ++ decimalDigits 17 (q - (q.floor : ℚ))

/-- Python's `str`/`print` rendering of the float result. -/
def pyStrFloat (q : ℚ) : String :=
  if q.num < 0 then "-" ++ pyStrFloatNN (-q) else pyStrFloatNN q

/-- Observable outcome of one run of the script. -/
inductive Outcome
  | success (stdout : String)
  | parseFailure
  | helpExit
  | uncaught (e : PyError)
  deriving DecidableEq, Repr

/-- The help text argparse generates for this parser and writes to stdout on
`-h`/`--help` (the program name comes from the invocation). -/
def helpText : String :=
  "usage: argparse_avg.py [-h] [--numbers NUMBERS [NUMBERS ...]]\n\noptions:\n  -h, --help            show this help message and exit\n  --numbers NUMBERS [NUMBERS ...]\n"

/-- Process exit code of an outcome: 0 on success and on help, 2 for an
argparse usage error, 1 for an uncaught Python exception. -/
def exitCode : Outcome → ℕ
  | .success _ => 0
  | .parseFailure => 2
  | .helpExit => 0
  | .uncaught _ => 1

/-- Lines written to standard output: a successful run prints the result
line, a help exit prints the help text, failures print nothing there (usage
errors and tracebacks go to stderr). -/
def stdoutLines : Outcome → List String
  | .success s => [s]
  | .parseFailure => []
  | .helpExit => [helpText]
  | .uncaught _ => []

/-- Embedding of the script's top level (lines 8-13): parse the command
line; a usage error or help request makes argparse exit before `avg` runs;
if the flag was omitted, `args.numbers` is `None` and `avg(*args.numbers)`
raises `TypeError` at the splat; otherwise `avg` runs and on success
`print(result)` writes the rendered value followed by a newline. -/
def runProgram (argv : List String) : Outcome :=
  match parseArgs argv with
  | .error .usageError => .parseFailure
  | .error .helpRequest => .helpExit
  | .ok none => .uncaught .typeError
  | .ok (some xs) =>
      match avg xs with
      | .error e => .uncaught e
      | .ok v => .success (pyStrFloat v ++ "\n")

/-! ### Helper lemmas -/

/-- The left fold of `+` from `0` used by Python's `sum` agrees with
`List.sum`. -/
lemma pySum_eq_sum (xs : List ℚ) : pySum xs = xs.sum := by
  simp [pySum, List.sum_eq_foldl]

/-- A token that is no `float()` literal at all in particular has no finite
value. -/
lemma not_literal_pyFloat_none {t : String} (h : isPyFloatLiteral t = false) :
    pyFloat t = none := by
  cases hp : pyFloat t with
  | none => rfl
  | some v =>
      unfold isPyFloatLiteral at h
      rw [hp] at h
      simp at h

/-- Closing a value group preserves "the parsed attribute, when present, is
a non-empty list". -/
lemma closeBlock_nonempty {cur acc : Option (List ℚ)} {acc' : Option (List ℚ)}
    (hacc : ∀ ys, acc = some ys → ys ≠ [])
    (h : closeBlock cur acc = some acc') :
    ∀ ys, acc' = some ys → ys ≠ [] := by
  cases cur with
  | none =>
      simp [closeBlock] at h
      subst h
      exact hacc
  | some vs =>
      simp [closeBlock] at h
      rcases h with ⟨hvs, hne⟩
      intro ys hys hnil
      rw [← hne] at hys
      injection hys with h2
      exact hvs (List.reverse_eq_nil_iff.mp (h2.trans hnil))

/-- Any successful parse that produced a value list produced a non-empty
one: every way a list enters the result goes through a closed `nargs='+'`
group (at least one value) or an explicit `--numbers=X` (exactly one). -/
lemma parseAux_ok_nonempty :
    ∀ (toks : List String) (cur acc : Option (List ℚ)) (xs : List ℚ),
      (∀ ys, acc = some ys → ys ≠ []) →
      parseAux toks cur acc = .ok (some xs) → xs ≠ [] := by
  intro toks
  induction toks with
  | nil =>
      intro cur acc xs hacc h
      unfold parseAux at h
      cases hc : closeBlock cur acc with
      | none => rw [hc] at h; simp at h
      | some final =>
          rw [hc] at h
          simp at h
          exact closeBlock_nonempty hacc hc xs h
  | cons t rest ih =>
      intro cur acc xs hacc h
      unfold parseAux at h
      split at h
      · split at h
        · exact ih _ _ _ hacc h
        · simp at h
      · cases hc : closeBlock cur acc with
        | none => rw [hc] at h; simp at h
        | some acc' =>
            rw [hc] at h
            have hacc' := closeBlock_nonempty hacc hc
            simp only [] at h
            split at h
            · simp at h
            · simp at h
            · split at h
              · simp at h
                exact hacc' xs h
              · simp at h
            · simp at h
            · simp at h
            · exact ih _ _ _ hacc' h
            · split at h
              · refine ih _ _ _ ?_ h
                intro ys hys
                cases hys
                simp
              · simp at h

/-- Consuming a value group in which every token is a plain value and some
token has no finite `float()` value ends in a usage error. -/
lemma parseAux_consume_bad :
    ∀ (toks : List String) (vs : List ℚ) (acc : Option (List ℚ)),
      (∀ t ∈ toks, isValueTok t = true) →
      (∃ t ∈ toks, pyFloat t = none) →
      parseAux toks (some vs) acc = .error .usageError := by
  intro toks
  induction toks with
  | nil =>
      intro vs acc _ hb
      rcases hb with ⟨t, ht, _⟩
      cases ht
  | cons s rest ih =>
      intro vs acc hv hb
      have hs : isValueTok s = true := hv s (List.mem_cons_self s rest)
      unfold parseAux
      rw [if_pos (by simp [hs])]
      cases hps : pyFloat s with
      | none => simp [hps]
      | some x =>
          simp only [hps]
          rcases hb with ⟨t, ht, hbad⟩
          rcases List.mem_cons.mp ht with rfl | hmem
          · rw [hps] at hbad
            cases hbad
          · exact ih _ _ (fun u hu => hv u (List.mem_cons_of_mem _ hu)) ⟨t, hmem, hbad⟩

/-! ### Claim theorems -/

/-- C1: for every non-empty list of values, `avg` returns the left-to-right
sum of the elements divided by the element count, exactly the spec's
`sum(x1..xn) / n` (`averageSpec`). -/
theorem avg_eq_sum_div_count (xs : List ℚ) (h : xs ≠ []) :
    avg xs = .ok (averageSpec xs) := by
  have hl : (xs.length : ℚ) ≠ 0 :=
    Nat.cast_ne_zero.mpr (fun hc => h (List.length_eq_zero.mp hc))
  simp [avg, pyDiv, averageSpec, pySum_eq_sum, hl]

/-- Witness for C1 at the concrete input `[4, 6]`. -/
theorem avg_eq_sum_div_count_witness :
    ([4, 6] : List ℚ) ≠ [] ∧ avg [4, 6] = .ok (averageSpec [4, 6]) :=
  ⟨by simp, avg_eq_sum_div_count [4, 6] (by simp)⟩

/-- C2: `avg` on the empty argument tuple raises `ZeroDivisionError`
(`sum(()) = 0`, `len(()) = 0`, and `0 / 0` raises) instead of returning a
value. -/
theorem avg_empty_zero_division : avg [] = .error .zeroDivision := by
  simp [avg, pySum, pyDiv]

/-- C3 counterexample: with `--numbers` given zero values the parser itself
fails (usage error), and with the flag omitted the splat raises `TypeError`;
neither invocation reaches the division by zero the claim describes. -/
theorem zero_values_counterexample :
    runProgram ["--numbers"] = Outcome.parseFailure ∧
    runProgram [] = Outcome.uncaught PyError.typeError ∧
    Outcome.parseFailure ≠ Outcome.uncaught PyError.zeroDivision ∧
    Outcome.uncaught PyError.typeError ≠ Outcome.uncaught PyError.zeroDivision := by
  refine ⟨?_, ?_, ?_, ?_⟩ <;>
    simp [runProgram, parseArgs, parseAux, closeBlock, classify, startsList]

/-- C3 amended: `--numbers` with zero values is rejected by the parser with
a usage error (exit code 2) before the averaging step; an omitted flag makes
`args.numbers` equal to `None` and the program dies with an uncaught
`TypeError` at the splat (exit code 1).  Both paths exit non-zero and write
nothing to stdout; neither divides by zero. -/
theorem empty_or_absent_numbers_behavior :
    runProgram ["--numbers"] = Outcome.parseFailure ∧
    exitCode (runProgram ["--numbers"]) = 2 ∧
    stdoutLines (runProgram ["--numbers"]) = [] ∧
    runProgram [] = Outcome.uncaught PyError.typeError ∧
    exitCode (runProgram []) = 1 ∧
    stdoutLines (runProgram []) = [] := by
  refine ⟨?_, ?_, ?_, ?_, ?_, ?_⟩ <;>
    simp [runProgram, parseArgs, parseAux, closeBlock, classify, startsList, exitCode,
      stdoutLines]

/-- C4 counterexample: in `--numbers 1 --numbers 2` the token `--numbers`
follows the flag and is not a valid floating-point literal, yet the run
succeeds with exit code 0 and prints `2.0` — argparse treats it as a second
occurrence of the flag (last one wins), not as a value to convert. -/
theorem nonliteral_token_accepted :
    isPyFloatLiteral "--numbers" = false ∧
    runProgram ["--numbers", "1", "--numbers", "2"] = Outcome.success "2.0\n" ∧
    exitCode (runProgram ["--numbers", "1", "--numbers", "2"]) = 0 ∧
    stdoutLines (runProgram ["--numbers", "1", "--numbers", "2"]) = ["2.0\n"] := by
  have hp : parseArgs ["--numbers", "1", "--numbers", "2"] = .ok (some [2]) := by
    simp [parseArgs, parseAux, closeBlock, classify, isValueTok, startsList, negNumTail,
      pyFloat, pyFloatChars, parseFinite, digitPartAux, stripWs, expDigits, expPart, applyExp]
  have havg : avg [2] = .ok 2 := by
    simp [avg, pySum, pyDiv]
  have hstr : pyStrFloat 2 = "2.0" := by decide
  have hrun : runProgram ["--numbers", "1", "--numbers", "2"] = Outcome.success "2.0\n" := by
    simp only [runProgram, hp, havg, hstr]
    rfl
  exact ⟨by decide, hrun, by rw [hrun]; rfl, by rw [hrun]; rfl⟩

/-- C4 amended: for every invocation `--numbers v1 ... vk` in which each
token following the flag is a plain value token (not an option string or
separator) and some token is not a valid floating-point literal, the parse
fails with a usage error before the averaging step runs, the exit code is
non-zero, and nothing is written to stdout. -/
theorem bad_value_token_parse_failure (rest : List String)
    (hvals : ∀ t ∈ rest, isValueTok t = true)
    (hbad : ∃ t ∈ rest, isPyFloatLiteral t = false) :
    runProgram ("--numbers" :: rest) = Outcome.parseFailure ∧
    exitCode (runProgram ("--numbers" :: rest)) ≠ 0 ∧
    stdoutLines (runProgram ("--numbers" :: rest)) = [] := by
  have hb : ∃ t ∈ rest, pyFloat t = none := by
    rcases hbad with ⟨t, ht, h⟩
    exact ⟨t, ht, not_literal_pyFloat_none h⟩
  have hparse : parseArgs ("--numbers" :: rest) = .error .usageError := by
    have hstep : parseArgs ("--numbers" :: rest) = parseAux rest (some []) none := by
      simp [parseArgs, parseAux, closeBlock, classify, startsList]
    rw [hstep]
    exact parseAux_consume_bad rest [] none hvals hb
  have hrun : runProgram ("--numbers" :: rest) = Outcome.parseFailure := by
    simp [runProgram, hparse]
  exact ⟨hrun, by rw [hrun]; simp [exitCode], by rw [hrun]; rfl⟩

/-- Witness for C4 (amended) at the spec's example `--numbers 1 two 3`. -/
theorem bad_value_token_parse_failure_witness :
    (∀ t ∈ ["1", "two", "3"], isValueTok t = true) ∧
    (∃ t ∈ ["1", "two", "3"], isPyFloatLiteral t = false) ∧
    (runProgram ("--numbers" :: ["1", "two", "3"]) = Outcome.parseFailure ∧
     exitCode (runProgram ("--numbers" :: ["1", "two", "3"])) ≠ 0 ∧
     stdoutLines (runProgram ("--numbers" :: ["1", "two", "3"])) = []) :=
  ⟨by decide, ⟨"two", by simp, by decide⟩,
   bad_value_token_parse_failure ["1", "two", "3"] (by decide) ⟨"two", by simp, by decide⟩⟩

/-- C5: `<program> --numbers 4 6` succeeds with exit code 0 and writes the
single line `5.0` followed by a newline to stdout. -/
theorem cli_4_6_outputs_5 :
    runProgram ["--numbers", "4", "6"] = Outcome.success "5.0\n" ∧
    exitCode (runProgram ["--numbers", "4", "6"]) = 0 ∧
    stdoutLines (runProgram ["--numbers", "4", "6"]) = ["5.0\n"] := by
  have hparse : parseArgs ["--numbers", "4", "6"] = .ok (some [4, 6]) := by
    simp [parseArgs, parseAux, closeBlock, classify, isValueTok, startsList, negNumTail,
      pyFloat, pyFloatChars, parseFinite, digitPartAux, stripWs, expDigits, expPart, applyExp]
  have havg : avg [4, 6] = .ok 5 := by
    simp [avg, pySum, pyDiv]
    all_goals norm_num
  have hstr : pyStrFloat 5 = "5.0" := by decide
  have hrun : runProgram ["--numbers", "4", "6"] = Outcome.success "5.0\n" := by
    simp only [runProgram, hparse, havg, hstr]
    rfl
  exact ⟨hrun, by rw [hrun]; rfl, by rw [hrun]; rfl⟩

/-- C6: `avg` applied to a one-element tuple returns that element exactly
(the sum is `0 + x = x` and the divisor is `1`). -/
theorem avg_singleton_identity (x : ℚ) : avg [x] = .ok x := by
  simp [avg, pySum, pyDiv]

/-- C7: the spec's worked examples: `avg(1, 2, 3)` and `avg(1.5, 2.5)` both
return exactly `2.0`. -/
theorem avg_concrete_examples :
    avg [1, 2, 3] = .ok 2 ∧ avg [3 / 2, 5 / 2] = .ok 2 := by
  constructor <;> simp [avg, pySum, pyDiv] <;> norm_num

/-- C8: a successful parse that produced a value list went through the
`nargs='+'` group (at least one value) or an explicit `--numbers=X`, so the
list is non-empty, its length is non-zero, and `avg` on it returns a value
rather than raising `ZeroDivisionError`. -/
theorem parsed_numbers_nonempty (argv : List String) (xs : List ℚ)
    (h : parseArgs argv = .ok (some xs)) :
    xs ≠ [] ∧ xs.length ≠ 0 ∧ ∃ v, avg xs = .ok v := by
  have hxs : xs ≠ [] :=
    parseAux_ok_nonempty argv none none xs (fun ys hys => by cases hys) h
  have hlz : xs.length ≠ 0 := fun hc => hxs (List.length_eq_zero.mp hc)
  have hl : (xs.length : ℚ) ≠ 0 := Nat.cast_ne_zero.mpr hlz
  exact ⟨hxs, hlz, ⟨pySum xs / (xs.length : ℚ), by simp [avg, pyDiv, hl]⟩⟩

/-- Witness for C8 at `--numbers 4 6`. -/
theorem parsed_numbers_nonempty_witness :
    parseArgs ["--numbers", "4", "6"] = .ok (some [4, 6]) ∧
    (([4, 6] : List ℚ) ≠ [] ∧ ([4, 6] : List ℚ).length ≠ 0 ∧
     ∃ v, avg [4, 6] = .ok v) := by
  have hparse : parseArgs ["--numbers", "4", "6"] = .ok (some [4, 6]) := by
    simp [parseArgs, parseAux, closeBlock, classify, isValueTok, startsList, negNumTail,
      pyFloat, pyFloatChars, parseFinite, digitPartAux, stripWs, expDigits, expPart, applyExp]
  exact ⟨hparse, parsed_numbers_nonempty ["--numbers", "4", "6"] [4, 6] hparse⟩

/-- C9: when parsing leaves `args.numbers` equal to `None` (the flag was
omitted), the run dies with an uncaught `TypeError` at the splat call — not
with a division by zero. -/
theorem absent_numbers_type_error (argv : List String)
    (h : parseArgs argv = .ok none) :
    runProgram argv = Outcome.uncaught PyError.typeError ∧
    runProgram argv ≠ Outcome.uncaught PyError.zeroDivision := by
  constructor <;> simp [runProgram, h]

/-- Witness for C9 at the empty command line. -/
theorem absent_numbers_type_error_witness :
    parseArgs [] = .ok none ∧
    (runProgram [] = Outcome.uncaught PyError.typeError ∧
     runProgram [] ≠ Outcome.uncaught PyError.zeroDivision) :=
  ⟨rfl, absent_numbers_type_error [] rfl⟩

/-- C10: `avg` is deterministic — it is a pure function of its argument
tuple, so two runs on identical argument sequences return identical
results. -/
theorem avg_deterministic (xs ys : List ℚ) (h : xs = ys) : avg xs = avg ys := by
  rw [h]

/-- Witness for C10 on two identical runs over `[1, 2, 3]`. -/
theorem avg_deterministic_witness :
    ([1, 2, 3] : List ℚ) = [1, 2, 3] ∧ avg [1, 2, 3] = avg [1, 2, 3] :=
  ⟨rfl, avg_deterministic [1, 2, 3] [1, 2, 3] rfl⟩
